import Mathlib

/-!
Verification of the portfolio page scripts: the infinite carousel slider,
the banner rotator, the contact-form validation, and the mobile-menu
navigation, shallowly embedded from the JavaScript sources.
-/

namespace Portfolio

/-! ### Timing constants from the source -/

/-- `setInterval(slideNext, 3000)`: the slider tick cadence in milliseconds. -/
def slideIntervalMs : Nat := 3000

/-- `setTimeout(..., 500)`: the delay before the slider rewind fires, in milliseconds. -/
def rewindDelayMs : Nat := 500

/-- `setInterval(nextBanner, 3000)`: the banner rotation cadence in milliseconds. -/
def bannerIntervalMs : Nat := 3000

/-! ### Carousel slider (part_000 lines 56-87)

`N` is the number of real slides authored in `.image-list`; `W` is
`slideItems[0].offsetWidth`, measured before the clones are inserted.
Slides are identified by their original index `0..N-1`; a clone carries the
index of the slide it duplicates.
-/

/-- The authored slide sequence, each slide named by its original index. -/
def originalTrack (N : Nat) : List Nat := List.range N

/-- `slides.appendChild(firstClone)`: the clone of slide `0` is appended. -/
def trackAfterAppend (N : Nat) : List Nat := originalTrack N ++ [0]

/-- `slides.insertBefore(lastClone, slideItems[0])`: the clone of slide
`N-1` is prepended, yielding the extended track. -/
def extendedTrack (N : Nat) : List Nat := (N - 1) :: trackAfterAppend N

/-- `slideItems.length` at any time after the build: `slideItems` is the
live `slides.children` collection, so it counts both clones. -/
def slideItemsLength (N : Nat) : Nat := (extendedTrack N).length

/-- The original slide index displayed when the cursor stands at position
`p` of the extended track. -/
def displayedSlide (N p : Nat) : Nat := (extendedTrack N).getD p 0

/-- The mutable state of the slider: `currentIndex`, the inline
`style.transition` string, the `translateX` pixel offset written to
`style.transform`, and whether a rewind `setTimeout` is pending. -/
structure CarouselState where
  currentIndex : Nat
  transition : String
  transform : Int
  pendingRewind : Bool
deriving DecidableEq

/-- The state after the top-level build code ran: `currentIndex = 1`,
`slides.style.transform = translateX(-W * 1 px)`, and no transition was
ever assigned (the offset is set directly, not animated). -/
def buildSlider (_N W : Nat) : CarouselState :=
  { currentIndex := 1
    transition := ""
    transform := -(((W * 1 : Nat) : Int))
    pendingRewind := false }

/-- One `slideNext()` call: increment the cursor, switch the transition to
the animated easing, write the new offset, and schedule the rewind when
the incremented cursor equals `slideItems.length`. -/
def slideNext (N W : Nat) (s : CarouselState) : CarouselState :=
  let idx := s.currentIndex + 1
  { currentIndex := idx
    transition := "transform 0.5s ease-in-out"
    transform := -(((W * idx : Nat) : Int))
    pendingRewind := s.pendingRewind || decide (idx = slideItemsLength N) }

/-- The rewind callback (the body of the `setTimeout`): suppress the
transition, reset the cursor to `1`, and write the offset for cursor `1`. -/
def rewindSlider (W : Nat) (_s : CarouselState) : CarouselState :=
  { currentIndex := 1
    transition := "none"
    transform := -(((W * 1 : Nat) : Int))
    pendingRewind := false }

/-- Let a pending rewind timer fire; under the steady cadence (ticks
spaced no closer than the rewind delay) this happens before the next tick. -/
def runPendingRewind (W : Nat) (s : CarouselState) : CarouselState :=
  if s.pendingRewind then rewindSlider W s else s

/-- The state right after the `k`-th tick, before any rewind scheduled by
that tick fires; between consecutive ticks every pending rewind fires
(steady, non-racing cadence). -/
def ticksPre (N W : Nat) : Nat → CarouselState
  | 0 => buildSlider N W
  | k + 1 => slideNext N W (runPendingRewind W (ticksPre N W k))

/-- The rendered state after the `k`-th tick once any rewind scheduled by
that tick has fired. -/
def rendered (N W k : Nat) : CarouselState := runPendingRewind W (ticksPre N W k)

/-! ### Arithmetic helpers -/

lemma succ_mod_of_eq (a n : Nat) (h : a % n + 1 = n) : (a + 1) % n = 0 := by
  have h1 : (a + 1) % n = (a % n + 1 % n) % n := Nat.add_mod a 1 n
  rcases Nat.lt_or_ge 1 n with hn | hn
  · have h2 : 1 % n = 1 := Nat.mod_eq_of_lt hn
    rw [h1, h2, h, Nat.mod_self]
  · interval_cases n
    · simp at h
    · simp [Nat.mod_one]

lemma succ_mod_of_ne (a n : Nat) (hn : 0 < n) (h : a % n + 1 ≠ n) :
    (a + 1) % n = a % n + 1 := by
  have h1 : (a + 1) % n = (a % n + 1 % n) % n := Nat.add_mod a 1 n
  have hlt : a % n < n := Nat.mod_lt a hn
  rcases Nat.lt_or_ge 1 n with hn2 | hn2
  · have h2 : 1 % n = 1 := Nat.mod_eq_of_lt hn2
    have h3 : a % n + 1 < n := by omega
    rw [h1, h2, Nat.mod_eq_of_lt h3]
  · omega

lemma slideItemsLength_eq (N : Nat) : slideItemsLength N = N + 2 := by
  simp [slideItemsLength, extendedTrack, trackAfterAppend, originalTrack]

/-- Closed form for the state right after tick `k+1`, before that tick's
rewind (if any) fires. -/
lemma ticksPre_succ (N W k : Nat) :
    ticksPre N W (k + 1) =
      { currentIndex := 2 + k % (N + 1)
        transition := "transform 0.5s ease-in-out"
        transform := -(((W * (2 + k % (N + 1)) : Nat) : Int))
        pendingRewind := decide (k % (N + 1) = N) } := by
  induction k with
  | zero =>
    rw [show ticksPre N W 1 = slideNext N W (runPendingRewind W (buildSlider N W)) from rfl]
    rw [show runPendingRewind W (buildSlider N W) = buildSlider N W from rfl]
    simp only [slideNext, buildSlider, slideItemsLength_eq, Nat.zero_mod,
      CarouselState.mk.injEq, Bool.false_or, decide_eq_decide]
    repeat' apply And.intro
    all_goals first | rfl | omega | (push_cast; try ring)
  | succ j ih =>
    rw [show ticksPre N W (j + 1 + 1) =
          slideNext N W (runPendingRewind W (ticksPre N W (j + 1))) from rfl, ih]
    by_cases hp : j % (N + 1) = N
    · have hmod : (j + 1) % (N + 1) = 0 := succ_mod_of_eq j (N + 1) (by omega)
      simp only [runPendingRewind, decide_eq_true_eq]
      rw [if_pos hp]
      simp only [rewindSlider, slideNext, slideItemsLength_eq, hmod,
        CarouselState.mk.injEq, Bool.false_or, decide_eq_decide]
      repeat' apply And.intro
      all_goals first | rfl | omega | (push_cast; try ring)
    · have hlt : j % (N + 1) < N + 1 := Nat.mod_lt j (by omega)
      have hmod : (j + 1) % (N + 1) = j % (N + 1) + 1 :=
        succ_mod_of_ne j (N + 1) (by omega) (by omega)
      simp only [runPendingRewind, decide_eq_true_eq]
      rw [if_neg hp]
      have hp' : decide (j % (N + 1) = N) = false := by simp [hp]
      simp only [slideNext, slideItemsLength_eq, hmod, hp',
        CarouselState.mk.injEq, Bool.false_or, decide_eq_decide]
      generalize j % (N + 1) = r
      repeat' apply And.intro
      all_goals first | rfl | omega | (push_cast; try ring)

lemma ticksPre_currentIndex (N W k : Nat) (hk : 1 ≤ k) :
    (ticksPre N W k).currentIndex = 2 + (k - 1) % (N + 1) := by
  obtain ⟨j, rfl⟩ : ∃ j, k = j + 1 := ⟨k - 1, by omega⟩
  rw [ticksPre_succ]
  simp

lemma rendered_currentIndex (N W k : Nat) (hk : 1 ≤ k) :
    (rendered N W k).currentIndex =
      if (k - 1) % (N + 1) = N then 1 else 2 + (k - 1) % (N + 1) := by
  obtain ⟨j, rfl⟩ : ∃ j, k = j + 1 := ⟨k - 1, by omega⟩
  unfold rendered
  rw [ticksPre_succ]
  by_cases hp : j % (N + 1) = N
  · simp [runPendingRewind, rewindSlider, hp]
  · simp [runPendingRewind, hp]

lemma displayedSlide_zero (N : Nat) : displayedSlide N 0 = N - 1 := rfl

lemma displayedSlide_mid (N p : Nat) (h1 : 1 ≤ p) (h2 : p ≤ N) :
    displayedSlide N p = p - 1 := by
  obtain ⟨q, rfl⟩ : ∃ q, p = q + 1 := ⟨p - 1, by omega⟩
  have hq : q < N := by omega
  unfold displayedSlide extendedTrack trackAfterAppend originalTrack
  rw [List.getD_cons_succ, List.getD_eq_getElem?_getD, List.getElem?_append]
  rw [List.length_range, if_pos hq, List.getElem?_range hq]
  rfl

lemma displayedSlide_last (N : Nat) : displayedSlide N (N + 1) = 0 := by
  unfold displayedSlide extendedTrack trackAfterAppend originalTrack
  rw [List.getD_cons_succ, List.getD_eq_getElem?_getD,
    List.getElem?_append_right (by simp [List.length_range])]
  rw [List.length_range, Nat.sub_self]
  rfl

/-! ### Carousel claims -/

/-- C1 counterexample: for N = 1 slides of width 300, the first tick moves
the cursor to N + 1 = 2 (the trailing clone), yet no rewind is scheduled,
because the code compares the cursor against `slideItems.length` = N + 2. -/
theorem c1_counterexample :
    ¬ ((slideNext 1 300 (buildSlider 1 300)).pendingRewind = true ↔
       (slideNext 1 300 (buildSlider 1 300)).currentIndex = 1 + 1) := by
  decide

/-- C1 (amended): with no rewind already pending, a tick schedules a
rewind iff the incremented cursor equals N + 2 (`slideItems.length`, one
past the trailing clone); no rewind is scheduled while the cursor lies in
[1, N + 1]. -/
theorem slideNext_schedules_rewind_iff (N W : Nat) (s : CarouselState)
    (h : s.pendingRewind = false) :
    ((slideNext N W s).pendingRewind = true ↔ (slideNext N W s).currentIndex = N + 2) ∧
    ((slideNext N W s).currentIndex ≤ N + 1 → (slideNext N W s).pendingRewind = false) := by
  constructor
  · simp [slideNext, h, slideItemsLength_eq]
  · intro hle
    simp only [slideNext, slideItemsLength_eq, h, Bool.false_or] at hle ⊢
    simp only [decide_eq_false_iff_not]
    omega

/-- Witness for C1 (amended) at N = 1, W = 300: the first tick reaches
cursor 2 ≤ N + 1 and schedules no rewind. -/
theorem slideNext_schedules_rewind_iff_witness :
    (slideNext 1 300 (buildSlider 1 300)).pendingRewind = false :=
  (slideNext_schedules_rewind_iff 1 300 (buildSlider 1 300) rfl).2 (by decide)

/-- C2 counterexample: for N = 3, W = 300, the third tick leaves the
cursor at 4 but schedules no rewind (the claim says it does). -/
theorem c2_counterexample :
    (ticksPre 3 300 3).currentIndex = 4 ∧ (ticksPre 3 300 3).pendingRewind = false := by
  decide

/-- C2 (amended): for N = 3, W = 300: build gives cursor 1, offset -300;
ticks 1-3 give cursors 2,3,4 with offsets -600,-900,-1200 animated and no
rewind scheduled; the fourth tick gives cursor 5, offset -1500 animated
and schedules the rewind, which 500 ms later sets the transition to
`none`, the cursor to 1, and the offset to -300. -/
theorem slider_trace_n3_w300 :
    buildSlider 3 300 =
      { currentIndex := 1, transition := "", transform := -300, pendingRewind := false } ∧
    ticksPre 3 300 1 =
      { currentIndex := 2, transition := "transform 0.5s ease-in-out",
        transform := -600, pendingRewind := false } ∧
    ticksPre 3 300 2 =
      { currentIndex := 3, transition := "transform 0.5s ease-in-out",
        transform := -900, pendingRewind := false } ∧
    ticksPre 3 300 3 =
      { currentIndex := 4, transition := "transform 0.5s ease-in-out",
        transform := -1200, pendingRewind := false } ∧
    ticksPre 3 300 4 =
      { currentIndex := 5, transition := "transform 0.5s ease-in-out",
        transform := -1500, pendingRewind := true } ∧
    rendered 3 300 4 =
      { currentIndex := 1, transition := "none", transform := -300, pendingRewind := false } ∧
    rewindDelayMs = 500 := by
  decide

/-- C3 counterexample: for N = 2, W = 300, after the third tick (ticks
steadily spaced) the cursor is 4, not 1 + (3 mod 3) = 1 as claimed. -/
theorem c3_counterexample :
    ¬ ((ticksPre 2 300 3).currentIndex = 1 + 3 % (2 + 1)) := by
  decide

/-- C3 (amended): for N ≥ 2 and k ≥ 1 with ticks spaced no closer than the
rewind delay, the cursor after the k-th tick and before any pending rewind
fires equals 2 + ((k-1) mod (N+1)); this agrees with 1 + (k mod (N+1))
except when N+1 divides k, where the cursor is N + 2. -/
theorem cursor_after_kth_tick (N W k : Nat) (_hN : 2 ≤ N) (hk : 1 ≤ k) :
    (ticksPre N W k).currentIndex = 2 + (k - 1) % (N + 1) :=
  ticksPre_currentIndex N W k hk

/-- Witness for C3 (amended) at N = 2, W = 300, k = 4. -/
theorem cursor_after_kth_tick_witness :
    (ticksPre 2 300 4).currentIndex = 2 + (4 - 1) % (2 + 1) :=
  cursor_after_kth_tick 2 300 4 (by decide) (by decide)

/-- C4 counterexample: for N = 2, W = 300 the rendered cursor sequence is
not periodic with period N: after 1 + N = 3 ticks the rendered cursor is
1, while after 1 tick it is 2. -/
theorem c4_counterexample :
    ¬ ((rendered 2 300 (1 + 2)).currentIndex = (rendered 2 300 1).currentIndex) := by
  decide

/-- C4 (amended): the rendered (post-rewind) cursor sequence is periodic
with period N + 1, not N; within one period the positions 2, ..., N+1, 1
are rendered, so the real slides 1, ..., N-1 are each visited once in
original order while slide 0 is rendered twice in a row: first as the
trailing clone (position N+1), then as the real first slide (position 1)
after the rewind. -/
theorem rendered_cursor_cycle (N W k : Nat) (hN : 1 ≤ N) (hk : 1 ≤ k) :
    (rendered N W (k + (N + 1))).currentIndex = (rendered N W k).currentIndex ∧
    (∀ j, 1 ≤ j → j ≤ N + 1 →
      displayedSlide N ((rendered N W j).currentIndex) = if j < N then j else 0) := by
  constructor
  · rw [rendered_currentIndex N W k hk, rendered_currentIndex N W (k + (N + 1)) (by omega)]
    have h1 : (k + (N + 1) - 1) % (N + 1) = (k - 1) % (N + 1) := by
      have h2 : k + (N + 1) - 1 = (k - 1) + (N + 1) := by omega
      rw [h2, Nat.add_mod_right]
    rw [h1]
  · intro j hj1 hj2
    rw [rendered_currentIndex N W j hj1]
    rcases Nat.lt_or_ge j N with hjN | hjN
    · have hmod : (j - 1) % (N + 1) = j - 1 := Nat.mod_eq_of_lt (by omega)
      have hne : (j - 1) % (N + 1) ≠ N := by omega
      rw [if_neg hne, hmod]
      have h3 : 2 + (j - 1) = j + 1 := by omega
      rw [h3, displayedSlide_mid N (j + 1) (by omega) (by omega)]
      rw [if_pos hjN]
      omega
    · rcases Nat.eq_or_lt_of_le hjN with hje | hjlt
      · have hmod : (j - 1) % (N + 1) = N - 1 := by
          rw [← hje]
          exact Nat.mod_eq_of_lt (by omega)
        have hne : (j - 1) % (N + 1) ≠ N := by omega
        rw [if_neg hne, hmod]
        have h3 : 2 + (N - 1) = N + 1 := by omega
        rw [h3, displayedSlide_last N, if_neg (by omega)]
      · have hje : j = N + 1 := by omega
        subst hje
        have hmod : (N + 1 - 1) % (N + 1) = N := by
          have h2 : N + 1 - 1 = N := by omega
          rw [h2]
          exact Nat.mod_eq_of_lt (by omega)
        rw [if_pos hmod, displayedSlide_mid N 1 (by omega) (by omega)]
        rw [if_neg (by omega)]

/-- Witness for C4 (amended) at N = 2, W = 300, k = 1, j = 3. -/
theorem rendered_cursor_cycle_witness :
    (rendered 2 300 (1 + (2 + 1))).currentIndex = (rendered 2 300 1).currentIndex ∧
    displayedSlide 2 ((rendered 2 300 3).currentIndex) = if (3 : Nat) < 2 then 3 else 0 :=
  ⟨(rendered_cursor_cycle 2 300 1 (by decide) (by decide)).1,
   (rendered_cursor_cycle 2 300 1 (by decide) (by decide)).2 3 (by decide) (by decide)⟩

/-- C5: for N ≥ 1, after the build the extended track has length N + 2
with a clone of the last slide prepended and a clone of the first slide
appended, the real slides in between in order; the cursor is 1, the
offset is -W, and no transition animation is applied at build time. -/
theorem build_initial_state (N W : Nat) (_hN : 1 ≤ N) :
    (extendedTrack N).length = N + 2 ∧
    (extendedTrack N).head? = some (N - 1) ∧
    (extendedTrack N).getLast? = some 0 ∧
    (∀ i, i < N → (extendedTrack N)[i + 1]? = some i) ∧
    (buildSlider N W).currentIndex = 1 ∧
    (buildSlider N W).transform = -((W : Int)) ∧
    (buildSlider N W).transition = "" := by
  refine ⟨?_, rfl, ?_, ?_, rfl, ?_, rfl⟩
  · simpa [slideItemsLength] using slideItemsLength_eq N
  · rw [show extendedTrack N = ((N - 1) :: originalTrack N) ++ [0] from by
      simp [extendedTrack, trackAfterAppend]]
    exact List.getLast?_concat _
  · intro i hi
    unfold extendedTrack trackAfterAppend originalTrack
    rw [List.getElem?_cons_succ, List.getElem?_append]
    rw [List.length_range, if_pos hi, List.getElem?_range hi]
  · simp [buildSlider]

/-- Witness for C5 at N = 3, W = 300. -/
theorem build_initial_state_witness :
    (extendedTrack 3).length = 3 + 2 ∧ (buildSlider 3 300).currentIndex = 1 :=
  ⟨(build_initial_state 3 300 (by decide)).1,
   (build_initial_state 3 300 (by decide)).2.2.2.2.1⟩

/-- C6: every write of the track offset — at build, by a tick, and by the
rewind — stores exactly -W * Cursor for the cursor value written alongside
it; the offset is derived from the cursor at all three mutation sites. -/
theorem transform_eq_neg_width_mul_cursor (N W : Nat) (s : CarouselState) :
    (buildSlider N W).transform = -((W : Int) * ((buildSlider N W).currentIndex : Int)) ∧
    (slideNext N W s).transform = -((W : Int) * ((slideNext N W s).currentIndex : Int)) ∧
    (rewindSlider W s).transform = -((W : Int) * ((rewindSlider W s).currentIndex : Int)) := by
  refine ⟨?_, ?_, ?_⟩ <;> simp [buildSlider, slideNext, rewindSlider]

/-- C7: the code violates the no-visible-jump property. For N = 3,
W = 300 the rewind is scheduled by the tick that reaches cursor 5, one
past the trailing clone (the extended track has positions 0..4 only, so
position 5 holds no slide); when the transition is set to `none`, the
preceding offset -1500 and the following offset -300 are therefore not
pixel-identical positions of a clone and its original. -/
theorem rewind_fires_beyond_trailing_clone :
    (ticksPre 3 300 4).pendingRewind = true ∧
    (ticksPre 3 300 4).currentIndex = 5 ∧
    (extendedTrack 3).length = 5 ∧
    (extendedTrack 3)[5]? = none ∧
    (ticksPre 3 300 4).transform = -1500 ∧
    (rendered 3 300 4).transition = "none" ∧
    (rendered 3 300 4).transform = -300 := by
  decide

/-! ### Banner rotator (part_000 lines 27-53)

`B` is the number of elements with class `banner-image`; `display` holds
the inline `style.display` of each, in document order. -/

structure BannerState where
  indexBanner : Nat
  display : List String
deriving DecidableEq

/-- `changeBackground()`: reset `indexBanner` to 0 when it reached the
list length, set every banner's display to `none`, then set the banner at
`indexBanner` to `block`. -/
def changeBackground (B : Nat) (s : BannerState) : BannerState :=
  let idx := if B ≤ s.indexBanner then 0 else s.indexBanner
  { indexBanner := idx
    display := (List.replicate B "none").set idx "block" }

/-- `nextBanner()`: increment `indexBanner`, then `changeBackground()`. -/
def nextBanner (B : Nat) (s : BannerState) : BannerState :=
  changeBackground B { s with indexBanner := s.indexBanner + 1 }

/-- The module initialization: `indexBanner = 0` followed by the top-level
`changeBackground()` call. -/
def initBanner (B : Nat) : BannerState :=
  changeBackground B { indexBanner := 0, display := List.replicate B "" }

/-- The banner state after `k` firings of the 3000 ms interval. -/
def bannerAfter (B : Nat) : Nat → BannerState
  | 0 => initBanner B
  | k + 1 => nextBanner B (bannerAfter B k)

lemma bannerAfter_indexBanner (B k : Nat) (hB : 1 ≤ B) :
    (bannerAfter B k).indexBanner = k % B := by
  induction k with
  | zero =>
    simp [bannerAfter, initBanner, changeBackground]
  | succ j ih =>
    have hlt : j % B < B := Nat.mod_lt j hB
    by_cases hp : j % B + 1 = B
    · have hmod : (j + 1) % B = 0 := succ_mod_of_eq j B hp
      simp [bannerAfter, nextBanner, changeBackground, ih, hmod, hp]
    · have hmod : (j + 1) % B = j % B + 1 := succ_mod_of_ne j B hB hp
      simp only [bannerAfter, nextBanner, changeBackground, ih, hmod]
      rw [if_neg (by omega)]

lemma bannerAfter_display (B k : Nat) :
    (bannerAfter B k).display =
      (List.replicate B "none").set ((bannerAfter B k).indexBanner) "block" := by
  cases k <;> rfl

lemma count_set_replicate (B idx : Nat) (h : idx < B) :
    ((List.replicate B "none").set idx "block").count "block" = 1 := by
  induction B generalizing idx with
  | zero => omega
  | succ b ih =>
    cases idx with
    | zero =>
      simp [List.replicate_succ, List.count_cons, List.count_replicate]
    | succ i =>
      have hi : i < b := by omega
      simp [List.replicate_succ, List.count_cons, ih i hi]

/-- C8: the banner rotator starts showing index 0; each 3000 ms interval
tick increments the index, wrapping to 0 once it reaches the number of
banners B, so after k ticks the index is k mod B; after the initial call
and after every tick exactly one banner has display `block` and all the
others have display `none`. -/
theorem banner_rotation (B k : Nat) (hB : 1 ≤ B) :
    (bannerAfter B 0).indexBanner = 0 ∧
    (bannerAfter B k).indexBanner = k % B ∧
    (bannerAfter B k).display = (List.replicate B "none").set (k % B) "block" ∧
    (bannerAfter B k).display.count "block" = 1 ∧
    bannerIntervalMs = 3000 := by
  have h0 := bannerAfter_indexBanner B 0 hB
  have hk := bannerAfter_indexBanner B k hB
  have hd := bannerAfter_display B k
  refine ⟨by simpa using h0, hk, ?_, ?_, rfl⟩
  · rw [hd, hk]
  · rw [hd, hk]
    exact count_set_replicate B (k % B) (Nat.mod_lt k hB)

/-- Witness for C8 with 3 banners after 4 ticks (index wrapped to 1). -/
theorem banner_rotation_witness :
    (bannerAfter 3 4).indexBanner = 4 % 3 ∧ (bannerAfter 3 4).display.count "block" = 1 :=
  ⟨(banner_rotation 3 4 (by decide)).2.1, (banner_rotation 3 4 (by decide)).2.2.2.1⟩

/-! ### Contact form validation (part_000 lines 1-24)

The inputs are the raw values of the name, email and message fields; the
outcome records which alert is shown and whether the form is reset. -/

structure FormOutcome where
  alertMessage : String
  didReset : Bool
deriving DecidableEq

/-- JavaScript `String.prototype.trim`: strip whitespace from both ends
(modelled over the character list so that it evaluates by reduction). -/
def jsTrim (s : String) : String :=
  String.mk (((s.data.dropWhile Char.isWhitespace).reverse.dropWhile
    Char.isWhitespace).reverse)

/-- The success alert text, built from the trimmed name and email. -/
def successMessage (name email : String) : String :=
  "Thank you, " ++ name ++ "! We have received your message.\nWe will contact you at "
    ++ email ++ " soon."

/-- The alert text shown when a field is empty. -/
def fillAllFieldsMessage : String :=
  "Please fill out all fields before submitting the form."

/-- `formValidation()`: trim the three field values; if all are non-empty
(JavaScript string truthiness) alert the success message and reset the
form; otherwise alert the error message and leave the fields untouched. -/
def formValidation (nameRaw emailRaw messageRaw : String) : FormOutcome :=
  let name := jsTrim nameRaw
  let email := jsTrim emailRaw
  let message := jsTrim messageRaw
  if name ≠ "" ∧ email ≠ "" ∧ message ≠ "" then
    { alertMessage := successMessage name email, didReset := true }
  else
    { alertMessage := fillAllFieldsMessage, didReset := false }

/-- C9: the form shows the success alert and resets iff all three trimmed
fields are non-empty — no email-format condition appears in the test, so
any non-empty email string is accepted — and when some field is empty it
shows the error alert and performs no reset. -/
theorem formValidation_spec (nameRaw emailRaw messageRaw : String) :
    (formValidation nameRaw emailRaw messageRaw =
        { alertMessage := successMessage (jsTrim nameRaw) (jsTrim emailRaw), didReset := true } ↔
      (jsTrim nameRaw ≠ "" ∧ jsTrim emailRaw ≠ "" ∧ jsTrim messageRaw ≠ "")) ∧
    (¬ (jsTrim nameRaw ≠ "" ∧ jsTrim emailRaw ≠ "" ∧ jsTrim messageRaw ≠ "") →
      formValidation nameRaw emailRaw messageRaw =
        { alertMessage := fillAllFieldsMessage, didReset := false }) := by
  constructor
  · by_cases h : jsTrim nameRaw ≠ "" ∧ jsTrim emailRaw ≠ "" ∧ jsTrim messageRaw ≠ ""
    · simp [formValidation, h]
    · simp [formValidation, h, FormOutcome.mk.injEq]
  · intro h
    simp [formValidation, h]

/-- Witness for C9: an email with no at-sign is accepted when non-empty. -/
theorem formValidation_spec_witness :
    formValidation "Alice" "not-an-email" "hello" =
      { alertMessage := successMessage (jsTrim "Alice") (jsTrim "not-an-email"), didReset := true } :=
  (formValidation_spec "Alice" "not-an-email" "hello").1.mpr (by decide)

/-! ### Mobile menu navigation (javascripts.js lines 207-291)

The state holds `Navigation.isMenuOpen`, the `active` class on the
toggle, the `mobile-menu-open` class on the nav, the body `overflow`
style, and the two aria attributes (absent before the first call). -/

structure NavState where
  isMenuOpen : Bool
  toggleActive : Bool
  navMenuOpen : Bool
  bodyOverflow : String
  toggleAriaExpanded : Option String
  navAriaHidden : Option String
deriving DecidableEq

/-- `Navigation.openMobileMenu`: returns immediately when the menu is
already open; otherwise records the open state, adds the `active` and
`mobile-menu-open` classes, hides body overflow, and sets the aria
attributes. -/
def openMobileMenu (s : NavState) : NavState :=
  if s.isMenuOpen then s
  else
    { isMenuOpen := true
      toggleActive := true
      navMenuOpen := true
      bodyOverflow := "hidden"
      toggleAriaExpanded := some "true"
      navAriaHidden := some "false" }

/-- `Navigation.closeMobileMenu`: returns immediately when the menu is
already closed; otherwise clears the open state, removes the classes,
restores body overflow, and updates the aria attributes. -/
def closeMobileMenu (s : NavState) : NavState :=
  if !s.isMenuOpen then s
  else
    { isMenuOpen := false
      toggleActive := false
      navMenuOpen := false
      bodyOverflow := ""
      toggleAriaExpanded := some "false"
      navAriaHidden := some "true" }

/-- The page-load state: menu closed, no classes, default overflow, aria
attributes not yet set. -/
def navInitialState : NavState :=
  { isMenuOpen := false
    toggleActive := false
    navMenuOpen := false
    bodyOverflow := ""
    toggleAriaExpanded := none
    navAriaHidden := none }

/-- C10: `openMobileMenu` is a no-op on an open menu and `closeMobileMenu`
is a no-op on a closed menu, so both are idempotent: a second consecutive
call leaves the flag, the toggled classes, the body overflow style and
the aria attributes exactly as after the first call. -/
theorem menu_open_close_idempotent (s : NavState) :
    (s.isMenuOpen = true → openMobileMenu s = s) ∧
    (s.isMenuOpen = false → closeMobileMenu s = s) ∧
    openMobileMenu (openMobileMenu s) = openMobileMenu s ∧
    closeMobileMenu (closeMobileMenu s) = closeMobileMenu s := by
  cases h : s.isMenuOpen <;> simp [openMobileMenu, closeMobileMenu, h]

/-- Witness for C10 at the page-load state: closing a closed menu changes
nothing. -/
theorem menu_open_close_idempotent_witness :
    closeMobileMenu navInitialState = navInitialState :=
  (menu_open_close_idempotent navInitialState).2.1 rfl

end Portfolio
